import Mathlib

/-!
Verification development for the qwentts backend core: a shallow embedding of
`src/backend/app/model_manager.py` (the `Qwen3TTSModelManager` class) and
`src/backend/app/audio_utils.py` (the `AudioProcessor` helpers), together with
theorems settling the stated properties of those modules.

Modelling conventions:
* Python `dict[str, V]` becomes an association list `List (String × V)` with
  the usual lookup / replace-or-append insert / delete operations, which agree
  with dict semantics on the key-unique lists the code constructs.
* The expensive external loaders (`Qwen3TTSModel.from_pretrained`,
  `Qwen3TTSTokenizer.from_pretrained`) are oracles passed in as arguments:
  a function from the resolved model identifier to `Except LoadErr Handle`.
  Loaded handles are opaque; they are represented by `Nat`.
* Exceptions become `Except` results; the logging calls, the `model.eval()`
  call, the CUDA cache release inside `clear_cache`, and the torch device /
  dtype fields have no bearing on any claim and are not represented.
* Audio sample values are represented by `ℚ` (exact stand-ins for the float
  amplitudes), and the WAV payload produced by `soundfile.write` with its
  default WAV subtype (16-bit PCM) is modelled explicitly.
-/

/-- Opaque loaded model / tokenizer handle (the Python object identity). -/
abbrev Handle := Nat

/-- Opaque payload of an exception raised by the underlying load procedure
(`from_pretrained`); the code re-raises it as-is. -/
abbrev LoadErr := String

/-- Lookup in a Python-dict-like association list (`d[k]` / `k in d`). -/
def dictFind {α : Type} (d : List (String × α)) (k : String) : Option α :=
  match d with
  | [] => none
  | (k', v) :: rest => if k' = k then some v else dictFind rest k

/-- Membership test, Python `k in d`. -/
def dictContains {α : Type} (d : List (String × α)) (k : String) : Bool :=
  (dictFind d k).isSome

/-- Python `d[k] = v`: replace the binding for `k` when present, else append. -/
def dictInsert {α : Type} (d : List (String × α)) (k : String) (v : α) :
    List (String × α) :=
  match d with
  | [] => [(k, v)]
  | (k', v') :: rest =>
      if k' = k then (k, v) :: rest else (k', v') :: dictInsert rest k v

/-- Python `del d[k]` (on key-unique lists): drop the binding for `k`. -/
def dictErase {α : Type} (d : List (String × α)) (k : String) :
    List (String × α) :=
  match d with
  | [] => []
  | (k', v') :: rest =>
      if k' = k then rest else (k', v') :: dictErase rest k

/-- `MODEL_SIZES` from `model_manager.py`: each size profile maps each model
role to a concrete HuggingFace model identifier. -/
def MODEL_SIZES : List (String × List (String × String)) :=
  [("0.6B",
    [("custom_voice", "Qwen/Qwen3-TTS-12Hz-0.6B-CustomVoice"),
     ("voice_design", "Qwen/Qwen3-TTS-12Hz-0.6B-VoiceDesign"),
     ("voice_clone", "Qwen/Qwen3-TTS-12Hz-0.6B-Base")]),
   ("1.7B",
    [("custom_voice", "Qwen/Qwen3-TTS-12Hz-1.7B-CustomVoice"),
     ("voice_design", "Qwen/Qwen3-TTS-12Hz-1.7B-VoiceDesign"),
     ("voice_clone", "Qwen/Qwen3-TTS-12Hz-1.7B-Base")])]

/-- `TOKENIZER_MODEL`: the tokenizer identifier, shared across sizes. -/
def TOKENIZER_MODEL : String := "Qwen/Qwen3-TTS-Tokenizer-12Hz"

/-- `MODEL_SIZES[size]` as an optional lookup. -/
def sizesFind (size : String) : Option (List (String × String)) :=
  dictFind MODEL_SIZES size

/-- `model_type in MODEL_SIZES[size]`: the role is defined for that profile. -/
def roleDefined (size role : String) : Bool :=
  match sizesFind size with
  | some profile => dictContains profile role
  | none => false

/-- `MODEL_SIZES[size][role]`: the model identifier a role resolves to. -/
def resolveId (size role : String) : Option String :=
  match sizesFind size with
  | some profile => dictFind profile role
  | none => none

/-- The mutable state of a `Qwen3TTSModelManager` instance: the `self.models`
cache (model handles keyed by role, plus the shared slot under the literal
key "tokenizer") and the active `self.model_size`. -/
structure ManagerState where
  models : List (String × Handle)
  model_size : String
deriving DecidableEq, Repr

/-- The state a fresh `Qwen3TTSModelManager(model_size)` starts in: an empty
cache and the requested size (`DEFAULT_MODEL_SIZE` for the module-level
singleton, which reads the MODEL_SIZE environment variable, default "1.7B"). -/
def initState (model_size : String) : ManagerState :=
  { models := [], model_size := model_size }

/-- The errors `load_model` / `load_tokenizer` / `set_model_size` can raise:
`valueError` is Python `ValueError` (the message text is elided, keeping the
offending key), `keyError` is the `KeyError` from subscripting `MODEL_SIZES`
with an unknown size, and `loadFailure` is the bare `raise` that re-raises
the exception of the underlying load procedure unchanged. -/
inductive TTSError where
  | valueError (key : String)
  | keyError (key : String)
  | loadFailure (e : LoadErr)
deriving DecidableEq, Repr

instance {ε α : Type} [DecidableEq ε] [DecidableEq α] :
    DecidableEq (Except ε α) := fun x y =>
  match x, y with
  | .ok a, .ok b =>
      if h : a = b then .isTrue (by rw [h])
      else .isFalse (fun hh => h (by cases hh; rfl))
  | .error a, .error b =>
      if h : a = b then .isTrue (by rw [h])
      else .isFalse (fun hh => h (by cases hh; rfl))
  | .ok _, .error _ => .isFalse (by intro hh; cases hh)
  | .error _, .ok _ => .isFalse (by intro hh; cases hh)

/-- The observable outcome of one `load_model` / `load_tokenizer` call: the
returned handle or raised exception, the manager state after the call, and
how many times the expensive load procedure (`from_pretrained`) ran. -/
structure LoadOutcome where
  result : Except TTSError Handle
  state : ManagerState
  loads : Nat
deriving DecidableEq, Repr

/-- The cache-miss tail of `load_model` (everything after the line-99 cache
check): subscript `MODEL_SIZES[self.model_size]`, reject an unknown
`model_type`, resolve the identifier, run the loader, and on success store
the handle in `self.models[model_type]`; on failure re-raise with the cache
untouched. -/
def loadFresh (loader : String → Except LoadErr Handle) (st : ManagerState)
    (model_type : String) : LoadOutcome :=
  match sizesFind st.model_size with
  | none => ⟨.error (.keyError st.model_size), st, 0⟩
  | some profile =>
      match dictFind profile model_type with
      | none => ⟨.error (.valueError model_type), st, 0⟩
      | some model_id =>
          match loader model_id with
          | .ok m =>
              ⟨.ok m, { st with models := dictInsert st.models model_type m }, 1⟩
          | .error e => ⟨.error (.loadFailure e), st, 1⟩

/-- `Qwen3TTSModelManager.load_model(model_type, force_reload)`: return the
cached handle when `model_type in self.models and not force_reload`, else run
the cache-miss tail `loadFresh`. -/
def load_model (loader : String → Except LoadErr Handle) (st : ManagerState)
    (model_type : String) (force_reload : Bool) : LoadOutcome :=
  match dictFind st.models model_type with
  | some m =>
      if force_reload then loadFresh loader st model_type else ⟨.ok m, st, 0⟩
  | none => loadFresh loader st model_type

/-- The cache-miss tail of `load_tokenizer`: run the tokenizer loader and on
success store the handle under the fixed key "tokenizer" in the same
`self.models` dict; on failure re-raise with the cache untouched. -/
def loadTokFresh (tokLoader : Except LoadErr Handle) (st : ManagerState) :
    LoadOutcome :=
  match tokLoader with
  | .ok t => ⟨.ok t, { st with models := dictInsert st.models "tokenizer" t }, 1⟩
  | .error e => ⟨.error (.loadFailure e), st, 1⟩

/-- `Qwen3TTSModelManager.load_tokenizer(force_reload)`: return the cached
entry when `"tokenizer" in self.models and not force_reload`, else load. -/
def load_tokenizer (tokLoader : Except LoadErr Handle) (st : ManagerState)
    (force_reload : Bool) : LoadOutcome :=
  match dictFind st.models "tokenizer" with
  | some t =>
      if force_reload then loadTokFresh tokLoader st else ⟨.ok t, st, 0⟩
  | none => loadTokFresh tokLoader st

/-- `Qwen3TTSModelManager.clear_cache()`: `self.models.clear()` — every entry,
model handles and the tokenizer slot alike, is removed. (The CUDA allocator
release that follows touches no manager state.) -/
def clear_cache (st : ManagerState) : ManagerState :=
  { st with models := [] }

/-- `Qwen3TTSModelManager.unload_model(model_type)`: delete the cache entry
when present, no-op otherwise. -/
def unload_model (st : ManagerState) (model_type : String) : ManagerState :=
  { st with models := dictErase st.models model_type }

/-- `Qwen3TTSModelManager.set_model_size(size)`: reject an unknown size with
`ValueError`; when the requested size differs from the active one, first run
`clear_cache()` and only then assign `self.model_size = size`. -/
def set_model_size (st : ManagerState) (size : String) :
    Except TTSError Unit × ManagerState :=
  if dictContains MODEL_SIZES size = false then
    (.error (.valueError size), st)
  else if size ≠ st.model_size then
    (.ok (), { clear_cache st with model_size := size })
  else
    (.ok (), st)

/-- One manager operation together with the outcome its external oracle would
produce, used to enumerate the reachable states of a manager instance. -/
inductive MgrOp where
  | load (role : String) (force : Bool) (res : Except LoadErr Handle)
  | loadTok (force : Bool) (res : Except LoadErr Handle)
  | unload (role : String)
  | clear
  | setSize (size : String)
deriving DecidableEq, Repr

/-- The state transition of one manager operation (outputs discarded). -/
def mgrStep (st : ManagerState) (op : MgrOp) : ManagerState :=
  match op with
  | .load role force res => (load_model (fun _ => res) st role force).state
  | .loadTok force res => (load_tokenizer res st force).state
  | .unload role => unload_model st role
  | .clear => clear_cache st
  | .setSize size => (set_model_size st size).2

/-- Run a sequence of manager operations from a state. -/
def mgrRun (st : ManagerState) (ops : List MgrOp) : ManagerState :=
  ops.foldl mgrStep st

/-- The cache-key invariant: every cached key is either the tokenizer slot or
a role defined in the currently active size profile. -/
def cacheOk (st : ManagerState) : Bool :=
  st.models.all (fun kv => kv.1 == "tokenizer" || roleDefined st.model_size kv.1)

/-!
Interleaving model for concurrent `load_model` calls. The serving process
runs `load_model` concurrently on OS threads (the startup pre-warm in
`main.py` runs `model_manager.load_model("custom_voice")` via
`asyncio.to_thread` while request handlers call it on the event-loop
thread), with no lock anywhere in `model_manager.py`. Under the
interpreter's global lock each of the three regions of `load_model` is a
block of plain dict/attribute operations executed atomically, while the
expensive `from_pretrained` call between them blocks and lets other threads
run: region A is the line-99 cache check, region B the load itself
(producing a fresh model object — numbered here by the order the loads
complete), region C the line-137 cache insert and return. A thread context
records which region comes next (`pc` 0 = check pending, 1 = miss observed
and load pending, 2 = load done and insert pending, 3 = returned) and the
handle the call returns. -/
structure ThreadCtx where
  pc : Nat
  ret : Option Handle
deriving DecidableEq, Repr

/-- Shared state of the concurrent runs: the `self.models` dict, the per-call
contexts, and how many `from_pretrained` invocations completed. -/
structure ConcState where
  models : List (String × Handle)
  threads : List ThreadCtx
  loadCount : Nat
deriving DecidableEq, Repr

/-- Replace the context of thread `i`. -/
def setThread (s : ConcState) (i : Nat) (t : ThreadCtx) : ConcState :=
  { s with threads := s.threads.set i t }

/-- Execute the next atomic region of thread `i`, all threads calling
`load_model role` with `force_reload=False` on the shared cache. -/
def threadStep (role : String) (s : ConcState) (i : Nat) : ConcState :=
  match s.threads.get? i with
  | none => s
  | some t =>
      if t.pc = 0 then
        match dictFind s.models role with
        | some m => setThread s i ⟨3, some m⟩
        | none => setThread s i ⟨1, none⟩
      else if t.pc = 1 then
        { setThread s i ⟨2, some s.loadCount⟩ with loadCount := s.loadCount + 1 }
      else if t.pc = 2 then
        match t.ret with
        | some m =>
            { setThread s i ⟨3, some m⟩ with models := dictInsert s.models role m }
        | none => s
      else s

/-- Run a schedule (the list of thread indices in execution order). -/
def runConc (role : String) (s : ConcState) (sched : List Nat) : ConcState :=
  sched.foldl (threadStep role) s

/-!
Audio layer (`audio_utils.py`). Sample amplitudes are `ℚ`. The repository
writes and reads WAV through `soundfile`: `sf.write` with a float array and
no explicit subtype uses the WAV default subtype, 16-bit integer PCM, and
`sf.read` returns float64 samples scaled by 1/32768; a float sample is
converted to the nearest 16-bit code clamped to the representable range.
Only single-channel WAV payloads are modelled, which is what `save_audio`
produces for the mono buffers of the data model. Optional dependencies
(`pydub` for lossy encoding, `librosa` for resampling) are availability
flags; the resampler itself is an oracle argument. The file-path source
branch of `load_audio` (a filesystem existence check followed by the same
`sf.read`) and the I/O performed when a destination path is given are
represented by recording the path together with the written content.
-/

/-- A decoded numpy array: one-dimensional (mono) or two-dimensional with
shape (frames, channels). -/
inductive NDArray where
  | mono (samples : List ℚ)
  | multi (frames : List (List ℚ))
deriving DecidableEq, Repr

/-- The content of a WAV payload as written by `sf.write`: 16-bit PCM codes
and the sample rate. -/
structure WavData where
  pcm : List Int
  rate : Nat
deriving DecidableEq, Repr

/-- Conversion of one float sample to its 16-bit PCM code: scale by 32768,
round to the nearest integer, clamp to the representable range. -/
def pcm16OfSample (s : ℚ) : Int :=
  max (-32768) (min 32767 (round (s * 32768)))

/-- Conversion of one 16-bit PCM code back to the float sample `sf.read`
returns. -/
def sampleOfPcm16 (v : Int) : ℚ :=
  (v : ℚ) / 32768

/-- `sf.write(..., audio_data, sample_rate, format="WAV")` on a mono array. -/
def wavEncode (samples : List ℚ) (sr : Nat) : WavData :=
  ⟨samples.map pcm16OfSample, sr⟩

/-- `sf.read` on a WAV payload: float samples and the stored rate. -/
def wavDecode (w : WavData) : List ℚ × Nat :=
  (w.pcm.map sampleOfPcm16, w.rate)

/-- An `audio_source` argument of `AudioProcessor.load_audio`: an
already-decoded numpy array, or encoded WAV bytes. -/
inductive AudioSource where
  | array (a : NDArray)
  | bytes (w : WavData)
deriving DecidableEq, Repr

/-- The exceptions of the audio layer: `ValueError` (the message text is
elided, keeping the offending key or format). -/
inductive AudioError where
  | valueError (key : String)
deriving DecidableEq, Repr

/-- Per-frame channel average, `np.mean(audio_data, axis=1)` on one row. -/
def channelMean (frame : List ℚ) : ℚ :=
  frame.sum / frame.length

/-- The mono-conversion step of `load_audio`: a two-dimensional array is
collapsed by averaging across channels, a one-dimensional array is kept. -/
def toMono (a : NDArray) : List ℚ :=
  match a with
  | .mono samples => samples
  | .multi frames => frames.map channelMean

/-- `AudioProcessor.load_audio(audio_source, sample_rate)`. The numpy-array
branch requires `sample_rate` and takes it as the loaded rate; the bytes
branch decodes the WAV payload. Multi-channel data is averaged to mono.
When `sample_rate` is given, truthy (nonzero), and differs from the loaded
rate, the audio is resampled through `librosa` when available, else left
unchanged at its original rate with a logged warning. -/
def load_audio (librosaAvailable : Bool)
    (resample : List ℚ → Nat → Nat → List ℚ)
    (audio_source : AudioSource) (sample_rate : Option Nat) :
    Except AudioError (List ℚ × Nat) :=
  match
    (match audio_source with
     | .array a =>
         match sample_rate with
         | none => Except.error (AudioError.valueError "sample_rate")
         | some sr => Except.ok (a, sr)
     | .bytes w => Except.ok (NDArray.mono (wavDecode w).1, (wavDecode w).2))
  with
  | .error e => .error e
  | .ok (a, loaded_sr) =>
      let audio := toMono a
      match sample_rate with
      | none => .ok (audio, loaded_sr)
      | some sr =>
          if sr ≠ 0 ∧ loaded_sr ≠ sr then
            if librosaAvailable then .ok (resample audio loaded_sr sr, sr)
            else .ok (audio, loaded_sr)
          else .ok (audio, loaded_sr)

/-- `SUPPORTED_FORMATS` of `AudioProcessor`. -/
def SUPPORTED_FORMATS : List String := ["wav", "mp3", "ogg"]

/-- ASCII lowering of one character, `str.lower()` on the ASCII range. -/
def asciiLowerChar (c : Char) : Char :=
  if 65 ≤ c.toNat ∧ c.toNat ≤ 90 then Char.ofNat (c.toNat + 32) else c

/-- Python `format.lower()`; the format names at play are ASCII. -/
def pyLower (s : String) : String :=
  String.mk (s.data.map asciiLowerChar)

/-- What `save_audio` produces: WAV bytes in memory, a WAV file written at a
path, or (when `pydub` is available) lossy-transcoded output, recorded with
the requested format and the intermediate WAV content handed to `pydub`. -/
inductive SaveOutput where
  | bytes (w : WavData)
  | file (path : String) (w : WavData)
  | lossyBytes (fmt : String) (w : WavData)
  | lossyFile (fmt : String) (path : String) (w : WavData)
deriving DecidableEq, Repr

/-- The `format.lower() == "wav"` branch of `save_audio`: write to the given
path and return it, or return the encoded bytes. -/
def saveWavOutput (audio_data : List ℚ) (sample_rate : Nat)
    (output_path : Option String) : SaveOutput :=
  match output_path with
  | some p => .file p (wavEncode audio_data sample_rate)
  | none => .bytes (wavEncode audio_data sample_rate)

/-- `AudioProcessor.save_audio(audio_data, sample_rate, format, output_path)`
with the `pydub` availability flag. Unsupported formats raise `ValueError`;
`"wav"` is encoded directly; `"mp3"` / `"ogg"` are transcoded through
`pydub` when it imports, and otherwise fall back, after a logged warning, to
the recursive call `save_audio(audio_data, sample_rate, "wav", output_path)`
— unfolded here to its value, the wav output for the same arguments. -/
def save_audio (pydubAvailable : Bool) (audio_data : List ℚ)
    (sample_rate : Nat) (format : String) (output_path : Option String) :
    Except AudioError SaveOutput :=
  if (SUPPORTED_FORMATS.contains (pyLower format)) = false then
    .error (.valueError format)
  else if pyLower format = "wav" then
    .ok (saveWavOutput audio_data sample_rate output_path)
  else
    if pydubAvailable = false then
      .ok (saveWavOutput audio_data sample_rate output_path)
    else
      match output_path with
      | some p =>
          .ok (.lossyFile (pyLower format) p (wavEncode audio_data sample_rate))
      | none =>
          .ok (.lossyBytes (pyLower format) (wavEncode audio_data sample_rate))

/-- `AudioProcessor.validate_audio_duration(audio_data, sample_rate,
min_duration)`: `duration = len(audio_data) / sample_rate`, returning
`duration >= min_duration`. -/
def validate_audio_duration (audio_data : List ℚ) (sample_rate : Nat)
    (min_duration : ℚ) : Bool :=
  let duration : ℚ := (audio_data.length : ℚ) / (sample_rate : ℚ)
  decide (min_duration ≤ duration)

/-! Supporting lemmas about the dict model and `load_model`. -/

theorem dictFind_insert_self {α : Type} (d : List (String × α)) (k : String)
    (v : α) : dictFind (dictInsert d k v) k = some v := by
  induction d with
  | nil => simp [dictInsert, dictFind]
  | cons hd tl ih =>
      obtain ⟨k', v'⟩ := hd
      rw [dictInsert]
      by_cases hk : k' = k
      · simp [hk, dictFind]
      · simp [hk, dictFind, ih]

theorem mem_dictInsert {α : Type} (k : String) (v : α) (kv : String × α) :
    ∀ d : List (String × α), kv ∈ dictInsert d k v → kv = (k, v) ∨ kv ∈ d
  | [], h => by
      rw [dictInsert] at h
      exact .inl (List.mem_singleton.mp h)
  | (k', v') :: rest, h => by
      rw [dictInsert] at h
      by_cases hk : k' = k
      · rw [if_pos hk] at h
        rcases List.mem_cons.mp h with h1 | h1
        · exact .inl h1
        · exact .inr (List.mem_cons_of_mem _ h1)
      · rw [if_neg hk] at h
        rcases List.mem_cons.mp h with h1 | h1
        · exact .inr (h1 ▸ List.mem_cons_self _ _)
        · rcases mem_dictInsert k v kv rest h1 with h2 | h2
          · exact .inl h2
          · exact .inr (List.mem_cons_of_mem _ h2)

theorem mem_dictErase {α : Type} (k : String) (kv : String × α) :
    ∀ d : List (String × α), kv ∈ dictErase d k → kv ∈ d
  | [], h => by rw [dictErase] at h; cases h
  | (k', v') :: rest, h => by
      rw [dictErase] at h
      by_cases hk : k' = k
      · rw [if_pos hk] at h
        exact List.mem_cons_of_mem _ h
      · rw [if_neg hk] at h
        rcases List.mem_cons.mp h with h1 | h1
        · exact h1 ▸ List.mem_cons_self _ _
        · exact List.mem_cons_of_mem _ (mem_dictErase k kv rest h1)

theorem load_model_hit (loader : String → Except LoadErr Handle)
    (st : ManagerState) (R : String) (m : Handle)
    (hfind : dictFind st.models R = some m) :
    load_model loader st R false = ⟨.ok m, st, 0⟩ := by
  unfold load_model
  rw [hfind]
  rfl

theorem load_model_miss (loader : String → Except LoadErr Handle)
    (st : ManagerState) (R : String)
    (hfind : dictFind st.models R = none) (force : Bool) :
    load_model loader st R force = loadFresh loader st R := by
  unfold load_model
  rw [hfind]

theorem load_model_force (loader : String → Except LoadErr Handle)
    (st : ManagerState) (R : String) :
    load_model loader st R true = loadFresh loader st R := by
  unfold load_model
  cases dictFind st.models R <;> rfl

theorem loadFresh_ok (loader : String → Except LoadErr Handle)
    (st : ManagerState) (R mid : String) (m : Handle)
    (hres : resolveId st.model_size R = some mid)
    (hl : loader mid = .ok m) :
    loadFresh loader st R =
      ⟨.ok m, { st with models := dictInsert st.models R m }, 1⟩ := by
  unfold resolveId at hres
  cases hsz : sizesFind st.model_size with
  | none => rw [hsz] at hres; simp at hres
  | some profile =>
      rw [hsz] at hres
      have hres' : dictFind profile R = some mid := hres
      simp [loadFresh, hsz, hres', hl]

theorem loadFresh_err (loader : String → Except LoadErr Handle)
    (st : ManagerState) (R mid : String) (e : LoadErr)
    (hres : resolveId st.model_size R = some mid)
    (hl : loader mid = .error e) :
    loadFresh loader st R = ⟨.error (.loadFailure e), st, 1⟩ := by
  unfold resolveId at hres
  cases hsz : sizesFind st.model_size with
  | none => rw [hsz] at hres; simp at hres
  | some profile =>
      rw [hsz] at hres
      have hres' : dictFind profile R = some mid := hres
      simp [loadFresh, hsz, hres', hl]

theorem loadFresh_undefined (loader : String → Except LoadErr Handle)
    (st : ManagerState) (R : String) (profile : List (String × String))
    (hsz : sizesFind st.model_size = some profile)
    (hrole : dictFind profile R = none) :
    loadFresh loader st R = ⟨.error (.valueError R), st, 0⟩ := by
  simp [loadFresh, hsz, hrole]

theorem dictContains_false_find_none {α : Type} (d : List (String × α))
    (k : String) (h : dictContains d k = false) : dictFind d k = none := by
  unfold dictContains at h
  cases hf : dictFind d k with
  | none => rfl
  | some v => rw [hf] at h; cases h

/-! Claim theorems. -/

/-- C1, counterexample. The claim says `set_profile` leaves the cached
tokenizer entry in place. It does not: the tokenizer shares the `self.models`
dict with the model handles, and `set_model_size` runs `clear_cache()`, which
clears that whole dict. Concretely: load the tokenizer into a fresh manager
(active size "1.7B", tokenizer cached as handle 7), then switch to the valid,
different size "0.6B" — the switch succeeds and the tokenizer entry is gone. -/
theorem C1_counterexample_tokenizer_evicted :
    dictFind ((load_tokenizer (.ok 7) (initState "1.7B") false).state).models
        "tokenizer" = some 7 ∧
    (set_model_size (load_tokenizer (.ok 7) (initState "1.7B") false).state
        "0.6B").1 = .ok () ∧
    dictFind ((set_model_size
        (load_tokenizer (.ok 7) (initState "1.7B") false).state "0.6B").2).models
        "tokenizer" = none := by
  decide

/-- C1, amended: for every valid requested profile id that differs from the
active one, `set_profile` evicts ALL cached entries — the model handles and
the tokenizer alike — and the active profile is swapped only after the
eviction: the result is exactly the swap applied to the `clear_cache` state,
and the eviction step itself (`clear_cache`) still has the old profile
active and an empty cache. -/
theorem C1_amended_set_size_evicts_all_before_swap (st : ManagerState)
    (size : String) (hv : dictContains MODEL_SIZES size = true)
    (hne : size ≠ st.model_size) :
    set_model_size st size =
      (.ok (), { clear_cache st with model_size := size }) ∧
    (clear_cache st).model_size = st.model_size ∧
    (clear_cache st).models = [] := by
  refine ⟨?_, rfl, rfl⟩
  simp [set_model_size, hv, hne]

/-- C1, witness for the amended theorem at a concrete manager state. -/
theorem C1_amended_witness :
    set_model_size ⟨[("custom_voice", 3), ("tokenizer", 7)], "1.7B"⟩ "0.6B" =
      (.ok (), ⟨[], "0.6B"⟩) := by
  have h := C1_amended_set_size_evicts_all_before_swap
    ⟨[("custom_voice", 3), ("tokenizer", 7)], "1.7B"⟩ "0.6B" (by decide) (by decide)
  exact h.1

/-- C4, counterexample. The claim says every role not defined in the active
profile is rejected with a `ConfigurationError`. But the line-99 cache check
runs first and the tokenizer shares the cache dict, so after
`load_tokenizer` has run, `load_model("tokenizer")` — a requested type that
no profile defines — returns the cached tokenizer object instead of
raising. -/
theorem C4_counterexample_cached_tokenizer_not_rejected :
    roleDefined "1.7B" "tokenizer" = false ∧
    load_model (fun _ => .error "offline")
        (load_tokenizer (.ok 7) (initState "1.7B") false).state "tokenizer"
        false =
      ⟨.ok 7, (load_tokenizer (.ok 7) (initState "1.7B") false).state, 0⟩ := by
  decide

/-- C4, amended: for every requested model type not defined in the active
profile AND not present in the cache (the shared tokenizer slot is the one
cache key outside the profile), `load_model` raises `ValueError` (the
spec's `ConfigurationError`), performs no load, and leaves the state — in
particular the cache — exactly as it was. -/
theorem C4_amended_unknown_role_rejected
    (loader : String → Except LoadErr Handle) (st : ManagerState) (R : String)
    (force : Bool) (hsz : dictContains MODEL_SIZES st.model_size = true)
    (hrole : roleDefined st.model_size R = false)
    (hmiss : dictContains st.models R = false) :
    load_model loader st R force = ⟨.error (.valueError R), st, 0⟩ := by
  have hfind := dictContains_false_find_none st.models R hmiss
  rw [load_model_miss loader st R hfind force]
  unfold dictContains at hsz
  cases hp : sizesFind st.model_size with
  | none => rw [sizesFind] at hp; rw [hp] at hsz; cases hsz
  | some profile =>
      have hr : dictFind profile R = none := by
        unfold roleDefined at hrole
        rw [hp] at hrole
        exact dictContains_false_find_none profile R hrole
      exact loadFresh_undefined loader st R profile hp hr

/-- C4, witness for the amended theorem: requesting the unsupported type
"flac" on a fresh manager raises `ValueError` and leaves the state as it
was. -/
theorem C4_amended_witness :
    load_model (fun _ => .ok 9) (initState "1.7B") "flac" false =
      ⟨.error (.valueError "flac"), initState "1.7B", 0⟩ :=
  C4_amended_unknown_role_rejected (fun _ => .ok 9) (initState "1.7B") "flac"
    false (by decide) (by decide) (by decide)

/-- C5, counterexample. The claim says a failed load propagates a
`ModelLoadError` carrying the role and the resolved model identifier. The
code instead re-raises the underlying exception unchanged (`raise` with no
wrapping): two calls for different roles — hence different resolved
identifiers — that hit the same underlying failure raise the exact same
exception value, so the propagated error carries neither the role nor the
identifier. -/
theorem C5_counterexample_error_lacks_role :
    (load_model (fun _ => .error "boom") (initState "1.7B") "custom_voice"
        false).result =
      (load_model (fun _ => .error "boom") (initState "1.7B") "voice_design"
        false).result ∧
    resolveId "1.7B" "custom_voice" ≠ resolveId "1.7B" "voice_design" := by
  decide

/-- C5, amended: for every role that resolves in the active profile, when the
underlying load procedure fails, `load_model` propagates the underlying
exception unchanged (the role and identifier appear only in the log, not in
the raised error), exactly one load was attempted, and the state — in
particular the cache — is exactly as it was before the call (no partial
entry inserted, no prior entry removed). -/
theorem C5_amended_failure_propagated_cache_clean
    (loader : String → Except LoadErr Handle) (st : ManagerState)
    (R mid : String) (e : LoadErr) (force : Bool)
    (hres : resolveId st.model_size R = some mid)
    (hl : loader mid = .error e)
    (hentry : dictContains st.models R = false ∨ force = true) :
    load_model loader st R force = ⟨.error (.loadFailure e), st, 1⟩ := by
  cases hfind : dictFind st.models R with
  | none =>
      rw [load_model_miss loader st R hfind force]
      exact loadFresh_err loader st R mid e hres hl
  | some m =>
      rcases hentry with hmiss | hforce
      · rw [dictContains_false_find_none st.models R hmiss] at hfind
        cases hfind
      · rw [hforce, load_model_force loader st R]
        exact loadFresh_err loader st R mid e hres hl

/-- C5, witness for the amended theorem: a fresh "0.6B" manager whose loader
fails with "boom" propagates exactly that error for the voice_clone role and
keeps its (empty) cache. -/
theorem C5_amended_witness :
    load_model (fun _ => .error "boom") (initState "0.6B") "voice_clone"
        false =
      ⟨.error (.loadFailure "boom"), initState "0.6B", 1⟩ :=
  C5_amended_failure_propagated_cache_clean (fun _ => .error "boom")
    (initState "0.6B") "voice_clone" "Qwen/Qwen3-TTS-12Hz-0.6B-Base" "boom"
    false (by decide) rfl (Or.inl (by decide))

/-- C3, confirmed: for a role defined in the active profile, when the first
`load_model(R)` call (with `force_reload=False`) returns a handle, calling
again runs the expensive load procedure at most once across the two calls,
the second call returns the same handle, performs no load itself, and does
not mutate the state. -/
theorem C3_second_load_uses_cache (loader : String → Except LoadErr Handle)
    (st : ManagerState) (R : String) (h : Handle)
    (hrole : roleDefined st.model_size R = true)
    (h1 : (load_model loader st R false).result = .ok h) :
    (load_model loader st R false).loads
        + (load_model loader (load_model loader st R false).state R
            false).loads ≤ 1 ∧
    (load_model loader (load_model loader st R false).state R false).result =
      .ok h ∧
    (load_model loader (load_model loader st R false).state R false).state =
      (load_model loader st R false).state := by
  cases hfind : dictFind st.models R with
  | some m =>
      have e1 : load_model loader st R false = ⟨.ok m, st, 0⟩ :=
        load_model_hit loader st R m hfind
      rw [e1] at h1 ⊢
      have hm : m = h := by
        simpa using h1
      subst hm
      rw [load_model_hit loader st R m hfind]
      exact ⟨by simp, rfl, rfl⟩
  | none =>
      rw [load_model_miss loader st R hfind false] at h1 ⊢
      obtain ⟨profile, hp⟩ : ∃ p, sizesFind st.model_size = some p := by
        unfold roleDefined at hrole
        cases hq : sizesFind st.model_size with
        | none => rw [hq] at hrole; cases hrole
        | some p => exact ⟨p, rfl⟩
      obtain ⟨mid, hmid⟩ : ∃ mid, dictFind profile R = some mid := by
        unfold roleDefined at hrole
        rw [hp] at hrole
        have : (dictFind profile R).isSome = true := hrole
        exact Option.isSome_iff_exists.mp this
      have hresolve : resolveId st.model_size R = some mid := by
        unfold resolveId
        rw [hp]
        exact hmid
      cases hl : loader mid with
      | error e =>
          rw [loadFresh_err loader st R mid e hresolve hl] at h1
          cases h1
      | ok m =>
          have e1 := loadFresh_ok loader st R mid m hresolve hl
          rw [e1] at h1 ⊢
          have hm : m = h := by
            simpa using h1
          subst hm
          have hfind2 :
              dictFind (dictInsert st.models R m) R = some m :=
            dictFind_insert_self st.models R m
          rw [load_model_hit loader _ R m hfind2]
          exact ⟨by simp, rfl, rfl⟩

/-- C3, witness: a fresh "1.7B" manager whose loader yields handle 5 loads
custom_voice once; the immediate second call is a pure cache hit returning
the same handle with no state change. -/
theorem C3_witness :
    (load_model (fun _ => .ok 5) (initState "1.7B") "custom_voice" false).loads
        + (load_model (fun _ => .ok 5)
            (load_model (fun _ => .ok 5) (initState "1.7B") "custom_voice"
              false).state "custom_voice" false).loads ≤ 1 ∧
    (load_model (fun _ => .ok 5)
        (load_model (fun _ => .ok 5) (initState "1.7B") "custom_voice"
          false).state "custom_voice" false).result = .ok 5 := by
  have h := C3_second_load_uses_cache (fun _ => .ok 5) (initState "1.7B")
    "custom_voice" 5 (by decide) (by decide)
  exact ⟨h.1, h.2.1⟩

/-- C2: `load_model` has no synchronization, so two logically concurrent
calls for the same role that both observe a cache miss each run the
expensive load. The schedule below is realizable in the serving process (the
startup pre-warm calls `load_model("custom_voice")` on a worker thread via
`asyncio.to_thread` while the first request calls it on the event-loop
thread): both threads pass the line-99 membership check on the empty cache
(prefix `[0, 1]` leaves both at "miss observed"), then both perform the
load. The final state shows two completed load invocations, and the two
callers hold two distinct handles (the later line-137 insert having
overwritten the earlier one) — against the claimed single flight with a
shared handle. -/
theorem C2_duplicate_loads_under_concurrency :
    (runConc "custom_voice" ⟨[], [⟨0, none⟩, ⟨0, none⟩], 0⟩
        [0, 1]).threads = [⟨1, none⟩, ⟨1, none⟩] ∧
    (runConc "custom_voice" ⟨[], [⟨0, none⟩, ⟨0, none⟩], 0⟩
        [0, 1, 0, 0, 1, 1]).loadCount = 2 ∧
    (runConc "custom_voice" ⟨[], [⟨0, none⟩, ⟨0, none⟩], 0⟩
        [0, 1, 0, 0, 1, 1]).threads = [⟨3, some 0⟩, ⟨3, some 1⟩] := by
  decide

/-! C10: the cache-key invariant, by induction over operation sequences. -/

theorem cacheOk_spec (st : ManagerState) :
    cacheOk st = true ↔
      ∀ kv ∈ st.models,
        kv.1 = "tokenizer" ∨ roleDefined st.model_size kv.1 = true := by
  unfold cacheOk
  rw [List.all_eq_true]
  constructor
  · intro h kv hkv
    have := h kv hkv
    simpa using this
  · intro h kv hkv
    have := h kv hkv
    simpa using this

theorem cacheOk_load (loader : String → Except LoadErr Handle)
    (st : ManagerState) (t : String) (f : Bool) (h : cacheOk st = true) :
    cacheOk (load_model loader st t f).state = true := by
  have hchar :
      (load_model loader st t f).state.model_size = st.model_size ∧
      ((load_model loader st t f).state.models = st.models ∨
        (roleDefined st.model_size t = true ∧
          ∃ m, (load_model loader st t f).state.models =
            dictInsert st.models t m)) := by
    have hfr : ∀ loader' st' t',
        (loadFresh loader' st' t').state.model_size = st'.model_size ∧
        ((loadFresh loader' st' t').state.models = st'.models ∨
          (roleDefined st'.model_size t' = true ∧
            ∃ m, (loadFresh loader' st' t').state.models =
              dictInsert st'.models t' m)) := by
      intro loader' st' t'
      cases hsz : sizesFind st'.model_size with
      | none =>
          have e1 : loadFresh loader' st' t' =
              ⟨.error (.keyError st'.model_size), st', 0⟩ := by
            simp [loadFresh, hsz]
          rw [e1]
          exact ⟨rfl, .inl rfl⟩
      | some profile =>
          cases hf : dictFind profile t' with
          | none =>
              rw [loadFresh_undefined loader' st' t' profile hsz hf]
              exact ⟨rfl, .inl rfl⟩
          | some mid =>
              have hres : resolveId st'.model_size t' = some mid := by
                unfold resolveId
                rw [hsz]
                exact hf
              cases hl : loader' mid with
              | error e =>
                  rw [loadFresh_err loader' st' t' mid e hres hl]
                  exact ⟨rfl, .inl rfl⟩
              | ok m =>
                  rw [loadFresh_ok loader' st' t' mid m hres hl]
                  refine ⟨rfl, .inr ⟨?_, m, rfl⟩⟩
                  simp [roleDefined, dictContains, hsz, hf]
    cases hfind : dictFind st.models t with
    | some m =>
        cases f with
        | true =>
            rw [load_model_force loader st t]
            exact hfr loader st t
        | false =>
            rw [load_model_hit loader st t m hfind]
            exact ⟨rfl, .inl rfl⟩
    | none =>
        rw [load_model_miss loader st t hfind f]
        exact hfr loader st t
  rw [cacheOk_spec] at h ⊢
  intro kv hkv
  rcases hchar with ⟨hsize, hmodels⟩
  rw [hsize]
  rcases hmodels with hsame | ⟨hrole, m, hins⟩
  · exact h kv (hsame ▸ hkv)
  · rw [hins] at hkv
    rcases mem_dictInsert t m kv st.models hkv with hkv1 | hkv1
    · right
      rw [hkv1]
      exact hrole
    · exact h kv hkv1

theorem cacheOk_loadTok (tokLoader : Except LoadErr Handle)
    (st : ManagerState) (f : Bool) (h : cacheOk st = true) :
    cacheOk (load_tokenizer tokLoader st f).state = true := by
  have hchar :
      (load_tokenizer tokLoader st f).state.model_size = st.model_size ∧
      ((load_tokenizer tokLoader st f).state.models = st.models ∨
        ∃ m, (load_tokenizer tokLoader st f).state.models =
          dictInsert st.models "tokenizer" m) := by
    have hfr :
        (loadTokFresh tokLoader st).state.model_size = st.model_size ∧
        ((loadTokFresh tokLoader st).state.models = st.models ∨
          ∃ m, (loadTokFresh tokLoader st).state.models =
            dictInsert st.models "tokenizer" m) := by
      cases tokLoader with
      | ok m => exact ⟨rfl, .inr ⟨m, rfl⟩⟩
      | error e => exact ⟨rfl, .inl rfl⟩
    cases hfind : dictFind st.models "tokenizer" with
    | some m =>
        cases f with
        | true =>
            have e1 : load_tokenizer tokLoader st true =
                loadTokFresh tokLoader st := by
              unfold load_tokenizer
              rw [hfind]
              rfl
            rw [e1]
            exact hfr
        | false =>
            have e1 : load_tokenizer tokLoader st false = ⟨.ok m, st, 0⟩ := by
              unfold load_tokenizer
              rw [hfind]
              rfl
            rw [e1]
            exact ⟨rfl, .inl rfl⟩
    | none =>
        have e1 : load_tokenizer tokLoader st f =
            loadTokFresh tokLoader st := by
          unfold load_tokenizer
          rw [hfind]
        rw [e1]
        exact hfr
  rw [cacheOk_spec] at h ⊢
  intro kv hkv
  rcases hchar with ⟨hsize, hmodels⟩
  rw [hsize]
  rcases hmodels with hsame | ⟨m, hins⟩
  · exact h kv (hsame ▸ hkv)
  · rw [hins] at hkv
    rcases mem_dictInsert "tokenizer" m kv st.models hkv with hkv1 | hkv1
    · left
      rw [hkv1]
    · exact h kv hkv1

theorem cacheOk_mgrStep (st : ManagerState) (op : MgrOp)
    (h : cacheOk st = true) : cacheOk (mgrStep st op) = true := by
  cases op with
  | load role force res => exact cacheOk_load (fun _ => res) st role force h
  | loadTok force res => exact cacheOk_loadTok res st force h
  | unload role =>
      rw [cacheOk_spec] at h ⊢
      intro kv hkv
      exact h kv (mem_dictErase role kv st.models hkv)
  | clear =>
      rw [cacheOk_spec]
      intro kv hkv
      cases hkv
  | setSize size =>
      show cacheOk (set_model_size st size).2 = true
      unfold set_model_size
      split
      · exact h
      · split
        · rw [cacheOk_spec]
          intro kv hkv
          cases hkv
        · exact h

theorem cacheOk_mgrRun (st : ManagerState) (ops : List MgrOp)
    (h : cacheOk st = true) : cacheOk (mgrRun st ops) = true := by
  induction ops generalizing st with
  | nil => exact h
  | cons op rest ih => exact ih (mgrStep st op) (cacheOk_mgrStep st op h)

/-- C10, confirmed: starting from any fresh manager, after any sequence of
`load_model` / `load_tokenizer` / `unload_model` / `clear_cache` /
`set_model_size` operations (with arbitrary loader outcomes), every cached
key other than the "tokenizer" slot is a role defined in the currently
active size profile: `load_model` inserts only after the role passed the
active-profile membership check, `unload_model` and `clear_cache` only
remove entries, and `set_model_size` clears the cache before swapping the
active size. -/
theorem C10_cache_keys_valid_invariant (model_size : String)
    (ops : List MgrOp) : cacheOk (mgrRun (initState model_size) ops) = true :=
  cacheOk_mgrRun (initState model_size) ops rfl

/-! Audio claim theorems. -/

/-- Per-sample exactness of the 16-bit PCM round trip on grid values. -/
theorem pcm16_roundtrip_on_grid (k : ℤ) (h1 : -32768 ≤ k) (h2 : k ≤ 32767) :
    sampleOfPcm16 (pcm16OfSample ((k : ℚ) / 32768)) = (k : ℚ) / 32768 := by
  unfold pcm16OfSample sampleOfPcm16
  have hscale : ((k : ℚ) / 32768) * 32768 = (k : ℚ) := by
    field_simp
  rw [hscale, round_intCast, min_eq_right h2, max_eq_right h1]

/-- C6, counterexample. The claim says the wav round trip is bit-exact. It is
not: `sf.write` with a float array and no explicit subtype stores WAV at the
default 16-bit PCM subtype, so any sample off the 1/32768 grid is quantized.
Concretely, a one-sample buffer holding 1/3 at 8000 Hz decodes back to
10923/32768, which differs from 1/3. -/
theorem C6_counterexample_not_bit_exact :
    load_audio false (fun a _ _ => a)
        (.bytes (wavEncode [(1 : ℚ) / 3] 8000)) none =
      .ok ([(10923 : ℚ) / 32768], 8000) ∧
    ((10923 : ℚ) / 32768) ≠ (1 : ℚ) / 3 := by
  have hq : pcm16OfSample ((1 : ℚ) / 3) = 10923 := by
    unfold pcm16OfSample
    norm_num [round_eq]
  constructor
  · simp only [load_audio, wavEncode, wavDecode, toMono, sampleOfPcm16,
      List.map_cons, List.map_nil]
    rw [hq]
    norm_num
  · norm_num

/-- C6, amended: for every buffer, `decode(encode(buffer, "wav"))` preserves
the sample count and the sample rate exactly, and reproduces each sample up
to 16-bit PCM quantization — bit-exactly whenever every sample already lies
on the 16-bit grid (an integer multiple of 1/32768 within the representable
range). -/
theorem C6_amended_roundtrip_quantized (librosaAvailable : Bool)
    (resample : List ℚ → Nat → Nat → List ℚ) (samples : List ℚ) (sr : Nat) :
    load_audio librosaAvailable resample (.bytes (wavEncode samples sr))
        none =
      .ok (samples.map (fun s => sampleOfPcm16 (pcm16OfSample s)), sr) ∧
    (samples.map (fun s => sampleOfPcm16 (pcm16OfSample s))).length =
      samples.length ∧
    ((∀ s ∈ samples, ∃ k : ℤ, -32768 ≤ k ∧ k ≤ 32767 ∧ s = (k : ℚ) / 32768) →
      samples.map (fun s => sampleOfPcm16 (pcm16OfSample s)) = samples) := by
  refine ⟨?_, by simp, ?_⟩
  · simp [load_audio, wavEncode, wavDecode, toMono, List.map_map]
  · intro hgrid
    induction samples with
    | nil => rfl
    | cons a rest ih =>
        have ha : sampleOfPcm16 (pcm16OfSample a) = a := by
          obtain ⟨k, hk1, hk2, hk3⟩ := hgrid a (List.mem_cons_self a rest)
          rw [hk3]
          exact pcm16_roundtrip_on_grid k hk1 hk2
        have hrest := ih (fun s hs => hgrid s (List.mem_cons_of_mem a hs))
        simp [ha, hrest]

/-- C6, witness for the amended theorem: a buffer whose one sample 1/2 lies
on the 16-bit grid round-trips bit-exactly with the rate preserved. -/
theorem C6_amended_witness :
    load_audio true (fun a _ _ => a)
        (.bytes (wavEncode [(1 : ℚ) / 2] 8000)) none =
      .ok ([(1 : ℚ) / 2], 8000) := by
  have h := C6_amended_roundtrip_quantized true (fun a _ _ => a)
    [(1 : ℚ) / 2] 8000
  have hg : ∀ s ∈ [(1 : ℚ) / 2],
      ∃ k : ℤ, -32768 ≤ k ∧ k ≤ 32767 ∧ s = (k : ℚ) / 32768 := by
    intro s hs
    rw [List.mem_singleton] at hs
    exact ⟨16384, by norm_num, by norm_num, by rw [hs]; norm_num⟩
  rw [h.1, h.2.2 hg]

/-- C7, confirmed: decoding a multi-channel array (every frame holding one
sample per channel) yields a single-channel buffer whose samples are the
per-frame average across channels, at the declared rate. The particular
instance of the claim, `[[1,3],[1,-1]]` decoding to `[2,0]`, is the witness
below. -/
theorem C7_multichannel_average (librosaAvailable : Bool)
    (resample : List ℚ → Nat → Nat → List ℚ) (frames : List (List ℚ))
    (sr c : Nat) (_hc : 0 < c) (_hframes : ∀ f ∈ frames, f.length = c) :
    load_audio librosaAvailable resample (.array (.multi frames)) (some sr) =
      .ok (frames.map channelMean, sr) := by
  simp [load_audio, toMono]

/-- C7, witness: the stereo buffer `[[1,3],[1,-1]]` decodes to `[2,0]`. -/
theorem C7_witness :
    load_audio true (fun a _ _ => a)
        (.array (.multi [[1, 3], [1, -1]])) (some 16000) =
      .ok ([2, 0], 16000) := by
  have h := C7_multichannel_average true (fun a _ _ => a) [[1, 3], [1, -1]]
    16000 2 (by decide) (by decide)
  rw [h]
  norm_num [channelMean]

/-- C8, confirmed: for any buffer and any requested lossy format ("mp3" or
"ogg"), when `pydub` is unavailable `save_audio` does not raise: it returns
exactly what the recursive wav call returns, namely successful wav output —
bytes when no destination path is given, the written path otherwise. -/
theorem C8_lossy_fallback_to_wav (audio_data : List ℚ) (sample_rate : Nat)
    (format : String) (output_path : Option String)
    (hf : format = "mp3" ∨ format = "ogg") :
    save_audio false audio_data sample_rate format output_path =
      save_audio false audio_data sample_rate "wav" output_path ∧
    save_audio false audio_data sample_rate "wav" output_path =
      .ok (saveWavOutput audio_data sample_rate output_path) := by
  rcases hf with hf | hf <;> subst hf <;> exact ⟨rfl, rfl⟩

/-- C8, witness: requesting "mp3" without pydub yields the wav bytes. -/
theorem C8_witness :
    save_audio false [1, 2] 8000 "mp3" none =
      .ok (.bytes (wavEncode [1, 2] 8000)) := by
  have h := C8_lossy_fallback_to_wav [1, 2] 8000 "mp3" none (Or.inl rfl)
  exact h.1.trans h.2

/-- C9, confirmed: for positive sample rates, `validate_audio_duration` is
true exactly when `len(samples) / sample_rate >= min_seconds`; with a
1-second threshold it is false for every half-second buffer and true for
every exactly-one-second buffer. -/
theorem C9_validate_min_duration_iff (audio_data : List ℚ)
    (sample_rate : Nat) (min_seconds : ℚ) (_hsr : 0 < sample_rate) :
    (validate_audio_duration audio_data sample_rate min_seconds = true ↔
      min_seconds ≤ (audio_data.length : ℚ) / (sample_rate : ℚ)) ∧
    ((audio_data.length : ℚ) / (sample_rate : ℚ) = 1 / 2 →
      validate_audio_duration audio_data sample_rate 1 = false) ∧
    ((audio_data.length : ℚ) / (sample_rate : ℚ) = 1 →
      validate_audio_duration audio_data sample_rate 1 = true) := by
  refine ⟨by simp [validate_audio_duration], ?_, ?_⟩
  · intro hd
    simp only [validate_audio_duration, hd]
    norm_num
  · intro hd
    simp only [validate_audio_duration, hd]
    norm_num

/-- C9, witness: with a 1-second threshold, a 0.5-second buffer (8000
samples at 16000 Hz) is rejected and a 1.0-second buffer (16000 samples at
16000 Hz) is accepted. -/
theorem C9_witness :
    validate_audio_duration (List.replicate 8000 0) 16000 1 = false ∧
    validate_audio_duration (List.replicate 16000 0) 16000 1 = true := by
  have h1 := C9_validate_min_duration_iff (List.replicate 8000 0) 16000 1
    (by norm_num)
  have h2 := C9_validate_min_duration_iff (List.replicate 16000 0) 16000 1
    (by norm_num)
  refine ⟨h1.2.1 ?_, h2.2.2 ?_⟩ <;> norm_num [List.length_replicate]
